import Mathlib

/-!
Shallow embedding of the core modules of the pycsmaca wired-network
simulator: the network layer (NetworkPacket, SwitchTable, NetworkSwitch),
the application layer (AppData, RandomSource), the link-layer Queue, and
the WiredTransceiver.  Pure functions mirror the Python methods; mutation
of module state is modelled by explicit state passing, and each handler
returns the updated state together with the observable effects (sends on
named connections, scheduled callbacks, direct queue pulls).  Python
exceptions (assertion failures, KeyError, AttributeError, RuntimeError)
are modelled by an explicit failure constructor that carries the state at
the moment of the raise, so that a failed call also records which
mutations had already happened.
-/

namespace Pycsmaca

/-- Application-layer payload (app_layer.py, class AppData): immutable
value with a destination address, a bit size and a source id. -/
structure AppData where
  dest_addr : Nat
  size : Nat
  source_id : Nat
deriving Repr, DecidableEq

/-- Network-layer PDU (network_layer.py, class NetworkPacket).  All four
addresses and the SSN default to None; the payload is an optional
AppData. -/
structure NetworkPacket where
  dst_addr : Option Nat := none
  src_addr : Option Nat := none
  snd_addr : Option Nat := none
  rcv_addr : Option Nat := none
  ssn : Option Nat := none
  data : Option AppData := none
deriving Repr, DecidableEq

/-- Modelled from the spec: the bit size of a NetworkPacket, as read by
the WiredTransceiver and by the Queue (both access a size attribute on
the packets they handle).  The size attribute is referenced by
wired_interface.py and by the unit tests but is not defined in
network_layer.py; per the spec (section 3) a WireFrame satisfies
size == header_size + packet.data.size, so a packet's size is its
payload's size.  A packet without payload has no size (AttributeError in
Python), hence the Option result. -/
def NetworkPacket.bitSize (p : NetworkPacket) : Option Nat :=
  p.data.map AppData.size

/-- A routing-table entry (network_layer.py, SwitchTable.Link): the NAME
of the egress connection and the next-hop address. -/
structure Link where
  connection : String
  next_hop : Nat
deriving Repr, DecidableEq

/-- A module reachable over one of the switch connections.  The field
address is some a when the Python module object has an address attribute
(with value a), and none when hasattr(module, 'address') is false. -/
structure ModuleRef where
  address : Option Nat := none
deriving Repr, DecidableEq

/-- The connection environment of a NetworkSwitch: the name-to-peer map
self.connections, in insertion order. -/
structure SwitchEnv where
  conns : List (String × ModuleRef)
deriving Repr, DecidableEq

/-- Mutable state of a NetworkSwitch: the routing table (an assoc list
dst_addr to Link, mirroring the SwitchTable dict) and the single SSN map
self.__ssns (assoc list address to recorded SSN). -/
structure SwitchState where
  table : List (Nat × Link)
  ssns : List (Nat × Nat)
deriving Repr, DecidableEq

/-- Python dict assignment d[k] = v on an assoc list: replace the first
binding of k if present, else append the new binding. -/
def updateSsn : List (Nat × Nat) → Nat → Nat → List (Nat × Nat)
  | [], k, v => [(k, v)]
  | (a, b) :: rest, k, v =>
      if a = k then (k, v) :: rest else (a, b) :: updateSsn rest k v

/-- The local-delivery scan of NetworkSwitch.handle_message: whether some
connected module exposes an address equal to the packet's dst_addr. -/
def isLocal (env : SwitchEnv) (dst : Option Nat) : Bool :=
  env.conns.any fun c =>
    match c.2.address with
    | some a => dst == some a
    | none => false

/-- Lookup of self.connections[name] for the switch. -/
def connLookup (env : SwitchEnv) (name : String) : Option ModuleRef :=
  env.conns.lookup name

/-- Result of one NetworkSwitch.handle_message call: the updated switch
state plus the list of sends (connection name, packet), or a raised
exception (assertion failure, KeyError, AttributeError). -/
inductive SwitchResult where
  | ok (st : SwitchState) (sends : List (String × NetworkPacket))
  | fail (reason : String)
deriving Repr, DecidableEq

/-- NetworkSwitch.handle_message after the stale-duplicate filter
(network_layer.py lines 191-221): local delivery, route lookup, address
and SSN assignment for user-originated packets, egress stamping. -/
def NetworkSwitch.route (env : SwitchEnv) (st : SwitchState)
    (m : NetworkPacket) (connName : String) : SwitchResult :=
  if isLocal env m.dst_addr then .ok st [("user", m)]
  else
    match m.dst_addr with
    | none => .ok st []
    | some d =>
      match st.table.lookup d with
      | none => .ok st []
      | some link =>
        match connLookup env link.connection with
        | none => .fail "KeyError: no such connection"
        | some iface =>
          match iface.address with
          | none => .fail "AttributeError: module has no address"
          | some egAddr =>
            if connName = "user" then
              let newSsn : Nat :=
                match st.ssns.lookup d with
                | none => 0
                | some v => v + 1
              .ok { st with ssns := updateSsn st.ssns d newSsn }
                [(link.connection,
                  { m with src_addr := some egAddr, ssn := some newSsn,
                           rcv_addr := some link.next_hop,
                           snd_addr := some egAddr })]
            else
              match m.src_addr, m.ssn with
              | some _, some _ =>
                .ok st
                  [(link.connection,
                    { m with rcv_addr := some link.next_hop,
                             snd_addr := some egAddr })]
              | _, _ => .fail "assertion failed: src_addr and ssn must be set"

/-- NetworkSwitch.handle_message (network_layer.py lines 178-221).  The
stale-duplicate filter runs first: a packet with src_addr set must carry
an SSN; a packet whose SSN is at most the recorded value for its
src_addr is dropped silently; otherwise the recorded value is updated
and processing continues with NetworkSwitch.route. -/
def NetworkSwitch.handle_message (env : SwitchEnv) (st : SwitchState)
    (m : NetworkPacket) (connName : String) : SwitchResult :=
  match m.src_addr with
  | none => NetworkSwitch.route env st m connName
  | some s =>
    match m.ssn with
    | none => .fail "assertion failed: ssn must be set when src_addr is"
    | some k =>
      match st.ssns.lookup s with
      | none =>
          NetworkSwitch.route env { st with ssns := updateSsn st.ssns s k }
            m connName
      | some r =>
          if k ≤ r then .ok st []
          else
            NetworkSwitch.route env { st with ssns := updateSsn st.ssns s k }
              m connName

/-- A data size or inter-arrival sampler of a RandomSource
(app_layer.py).  The source accepts an iterable (drained by iter and
next, exhaustion raising StopIteration), a nullary callable (in the
tests, a Mock with a finite side_effect list, which also raises
StopIteration when drained), or a numeric constant.  A finite stream of
either kind is finite vs; a constant (or an inexhaustible callable whose
successive values happen to be constant) is const v. -/
inductive Sampler (α : Type) where
  | finite (rest : List α)
  | const (v : α)
deriving Repr, DecidableEq

/-- One draw from a sampler: none models a StopIteration, and the
sampler state after the draw is returned alongside the value. -/
def Sampler.next {α : Type} : Sampler α → Option (α × Sampler α)
  | .finite [] => none
  | .finite (v :: rest) => some (v, .finite rest)
  | .const v => some (v, .const v)

/-- Constructor parameters of a RandomSource (app_layer.py). -/
structure RandomSource where
  source_id : Nat
  dest_addr : Nat
deriving Repr, DecidableEq

/-- Mutable state of a RandomSource: the two sampler iterators and the
two statistics (arrival_intervals records timestamps via record(stime);
data_size_stat collects the generated sizes via append). -/
structure SourceState where
  interval_iter : Sampler ℚ
  data_size_iter : Sampler Nat
  arrival_intervals : List ℚ
  data_size_stat : List Nat
deriving Repr, DecidableEq

/-- Observable outcome of one RandomSource generate call: the new state,
the AppData sent on the network connection (if any), and the delay of
the newly scheduled generate event (if any). -/
structure GenResult where
  st : SourceState
  sent : Option AppData
  scheduled : Option ℚ
deriving Repr, DecidableEq

/-- RandomSource construction tail (app_layer.py lines 86-87): the
initial call of the private schedule-next-arrival helper.  It draws one
interval; on StopIteration nothing is scheduled. -/
def RandomSource.init (intervalIter : Sampler ℚ) (sizeIter : Sampler Nat) :
    SourceState × Option ℚ :=
  match intervalIter.next with
  | none => (⟨intervalIter, sizeIter, [], []⟩, none)
  | some (dt, it) => (⟨it, sizeIter, [], []⟩, some dt)

/-- RandomSource generate (app_layer.py lines 113-125, embedding the
method named with a leading underscore in the source).  It draws a size;
on StopIteration it does nothing.  Otherwise it builds the AppData,
sends it on the network connection, calls the schedule-next-arrival
helper (which draws an interval and swallows a StopIteration, so an
exhausted interval sampler only suppresses the new schedule), and then
records the current time and the drawn size into the statistics. -/
def RandomSource.generate (src : RandomSource) (stime : ℚ)
    (st : SourceState) : GenResult :=
  match st.data_size_iter.next with
  | none => ⟨st, none, none⟩
  | some (sz, sizeIter) =>
    let app : AppData := ⟨src.dest_addr, sz, src.source_id⟩
    match st.interval_iter.next with
    | none =>
        ⟨⟨st.interval_iter, sizeIter,
          st.arrival_intervals ++ [stime], st.data_size_stat ++ [sz]⟩,
         some app, none⟩
    | some (dt, intIter) =>
        ⟨⟨intIter, sizeIter,
          st.arrival_intervals ++ [stime], st.data_size_stat ++ [sz]⟩,
         some app, some dt⟩

/-- Mutable state of a Queue (queues.py), generic in the element type
(the queue is duck-typed: it only reads a size attribute of its
elements, supplied below as an explicit function).  data_requests holds
the stored connections of the parked pull requests, identified by
connection name; the two traces are lists of (time, value) records and
start with the (stime, 0) samples recorded by the constructor. -/
structure QueueState (α : Type) where
  capacity : Option Nat
  packets : List α
  num_dropped : Nat
  data_requests : List String
  size_trace : List (ℚ × Nat)
  bitsize_trace : List (ℚ × Nat)
deriving Repr, DecidableEq

/-- Queue.push (queues.py lines 53-63).  If a pull request is parked,
hand the packet to the head-of-line waiter over its stored connection
(second component of the result) without touching the buffer or the
traces.  Otherwise append if capacity permits, recording the new size
and bitsize; on overflow only increment the drop counter. -/
def Queue.push {α : Type} (size : α → Nat) (stime : ℚ) (packet : α)
    (st : QueueState α) : QueueState α × Option (String × α) :=
  match st.data_requests with
  | connection :: rest =>
      ({ st with data_requests := rest }, some (connection, packet))
  | [] =>
    let fits : Bool :=
      match st.capacity with
      | none => true
      | some c => st.packets.length < c
    if fits then
      let packets := st.packets ++ [packet]
      ({ st with
          packets := packets
          size_trace := st.size_trace ++ [(stime, packets.length)]
          bitsize_trace :=
            st.bitsize_trace ++ [(stime, (packets.map size).sum)] }, none)
    else
      ({ st with num_dropped := st.num_dropped + 1 }, none)

/-- Queue.pop (queues.py lines 65-73): popping from an empty queue
raises a ValueError; otherwise the head is removed and the new size and
bitsize are recorded. -/
def Queue.pop {α : Type} (size : α → Nat) (stime : ℚ)
    (st : QueueState α) : Except String (α × QueueState α) :=
  match st.packets with
  | [] => .error "ValueError: pop from empty Queue"
  | ret :: rest =>
      .ok (ret, { st with
        packets := rest
        size_trace := st.size_trace ++ [(stime, rest.length)]
        bitsize_trace :=
          st.bitsize_trace ++ [(stime, (rest.map size).sum)] })

/-- The internal connection lookup of the queue (queues.py lines 82-86):
scan the connections map for the peer module and return that connection
(identified here by its name); a missing peer raises a ValueError.
Connected modules are identified by an id. -/
def Queue.get_connection_to (conns : List (String × Nat)) (module : Nat) :
    Except String String :=
  match conns.find? (fun c => c.2 == module) with
  | some c => .ok c.1
  | none => .error "ValueError: connection to module not found"

/-- Queue.get_next (queues.py lines 75-80): resolve the connection to
the requesting service; if the queue is non-empty, pop the head and send
it on that connection (second component), else park the connection at
the tail of the waiter deque. -/
def Queue.get_next {α : Type} (size : α → Nat)
    (conns : List (String × Nat)) (service : Nat) (stime : ℚ)
    (st : QueueState α) :
    Except String (QueueState α × Option (String × α)) :=
  match Queue.get_connection_to conns service with
  | .error e => .error e
  | .ok connection =>
    if st.packets.isEmpty then
      .ok ({ st with data_requests := st.data_requests ++ [connection] },
           none)
    else
      match Queue.pop size stime st with
      | .error e => .error e
      | .ok (packet, st2) => .ok (st2, some (connection, packet))

/-- Link-layer frame (wired_interface.py, class WireFrame). -/
structure WireFrame where
  packet : NetworkPacket
  duration : ℚ := 0
  header_size : Nat := 0
  preamble : ℚ := 0
deriving Repr, DecidableEq

/-- Constructor parameters of a WiredTransceiver (wired_interface.py).
The Python default bitrate is numpy inf (instantaneous transmission);
the embeddings below are used with finite rational bitrates. -/
structure WiredTransceiver where
  bitrate : ℚ
  header_size : Nat
  preamble : ℚ
  ifs : ℚ
deriving Repr, DecidableEq

/-- Mutable state of a WiredTransceiver: the four private state
variables of wired_interface.py lines 29-32. -/
structure TransceiverState where
  started : Bool := false
  tx_frame : Option WireFrame := none
  wait_ifs : Bool := false
  rx_frame : Option WireFrame := none
deriving Repr, DecidableEq

/-- The tx_busy property (wired_interface.py lines 42-44). -/
def TransceiverState.tx_busy (st : TransceiverState) : Bool :=
  st.tx_frame.isSome || st.wait_ifs

/-- The rx_busy property (wired_interface.py lines 46-52). -/
def TransceiverState.rx_busy (st : TransceiverState) : Bool :=
  st.rx_frame.isSome

/-- A message arriving at WiredTransceiver.handle_message: a
NetworkPacket from the queue or a WireFrame from the peer. -/
inductive TMessage where
  | net (packet : NetworkPacket)
  | wire (frame : WireFrame)
deriving Repr, DecidableEq

/-- A callback scheduled by the transceiver. -/
inductive TEvent where
  | tx_end
  | ifs_end
  | rx_end (frame : WireFrame)
deriving Repr, DecidableEq

/-- A payload sent by the transceiver on one of its connections. -/
inductive TOut where
  | frame (f : WireFrame)
  | packet (p : NetworkPacket)
deriving Repr, DecidableEq

/-- Observable effects of one transceiver handler call: sends on named
connections, scheduled (delay, callback) pairs, and whether
get_next(self) was invoked directly on the upstream queue module. -/
structure TEffects where
  sends : List (String × TOut)
  schedules : List (ℚ × TEvent)
  queue_get_next : Bool
deriving Repr, DecidableEq

/-- No effects. -/
def TEffects.none : TEffects := ⟨[], [], false⟩

/-- Result of a transceiver handler: the new state and the effects, or a
raised exception together with the state at the moment of the raise
(mirroring which mutations had already happened in the Python object
when the exception propagates). -/
inductive TResult where
  | ok (st : TransceiverState) (eff : TEffects)
  | fail (st : TransceiverState) (reason : String)
deriving Repr, DecidableEq

/-- The frame duration formula of wired_interface.py lines 62-63:
(header_size + packet size) / bitrate + preamble. -/
def txDuration (tr : WiredTransceiver) (s : Nat) : ℚ :=
  ((tr.header_size : ℚ) + (s : ℚ)) / tr.bitrate + tr.preamble

/-- WiredTransceiver.handle_message (wired_interface.py lines 58-75).
On the queue connection: a busy transmitter raises a RuntimeError before
any mutation; otherwise the frame duration is computed as
(header_size + packet.size) / bitrate + preamble, the WireFrame is sent
on the peer connection, the tx-end callback is scheduled after duration,
and the frame becomes tx_frame.  On the peer connection: the rx-end
callback is scheduled after the frame's duration and the frame becomes
rx_frame.  Messages on any other connection are ignored.  Reading the
size of a payloadless packet (or of a message of the wrong kind for the
branch) raises an AttributeError, as it would in Python. -/
def WiredTransceiver.handle_message (tr : WiredTransceiver)
    (st : TransceiverState) (msg : TMessage) (connName : String) :
    TResult :=
  if connName = "queue" then
    if st.tx_busy then
      .fail st "RuntimeError: new NetworkPacket while another TX running"
    else
      match msg with
      | .net p =>
        match p.bitSize with
        | none => .fail st "AttributeError: packet has no size"
        | some s =>
          let duration : ℚ := txDuration tr s
          let frame : WireFrame :=
            ⟨p, duration, tr.header_size, tr.preamble⟩
          .ok { st with tx_frame := some frame }
            ⟨[("peer", .frame frame)], [(duration, .tx_end)], false⟩
      | .wire _ => .fail st "AttributeError: message has no size"
  else if connName = "peer" then
    match msg with
    | .wire f =>
        .ok { st with rx_frame := some f }
          ⟨[], [(f.duration, .rx_end f)], false⟩
    | .net _ => .fail st "AttributeError: message has no duration"
  else
    .ok st TEffects.none

/-- WiredTransceiver.handle_tx_end (wired_interface.py lines 77-80):
clear tx_frame, raise wait_ifs, schedule the ifs-end callback after
ifs. -/
def WiredTransceiver.handle_tx_end (tr : WiredTransceiver)
    (st : TransceiverState) : TransceiverState × TEffects :=
  ({ st with tx_frame := Option.none, wait_ifs := true },
   ⟨[], [(tr.ifs, .ifs_end)], false⟩)

/-- WiredTransceiver.handle_ifs_end (wired_interface.py lines 82-84):
clear wait_ifs and call get_next(self) on the upstream queue module. -/
def WiredTransceiver.handle_ifs_end (st : TransceiverState) :
    TransceiverState × TEffects :=
  ({ st with wait_ifs := false }, ⟨[], [], true⟩)

/-- WiredTransceiver.handle_rx_end (wired_interface.py lines 86-88):
send frame.packet on the up connection, then clear rx_frame.  This is
the complete body: the source performs no other action here. -/
def WiredTransceiver.handle_rx_end (frame : WireFrame)
    (st : TransceiverState) : TransceiverState × TEffects :=
  ({ st with rx_frame := Option.none },
   ⟨[("up", .packet frame.packet)], [], false⟩)

/-- Python dict semantics of updateSsn: looking up the assigned key
yields the assigned value. -/
theorem lookup_updateSsn_self (l : List (Nat × Nat)) (k v : Nat) :
    (updateSsn l k v).lookup k = some v := by
  induction l with
  | nil => simp [updateSsn]
  | cons p t ih =>
    rcases p with ⟨a, b⟩
    by_cases hak : a = k
    · subst hak
      simp [updateSsn]
    · simp only [updateSsn, if_neg hak, List.lookup]
      have : (k == a) = false := by
        simp [Ne.symm hak]
      simp [this, ih]

/-- C1: a NetworkSwitch handling a user-originated NetworkPacket whose
destination d is routable and not local sets the packet's src_addr to
the egress interface's address and assigns its ssn from the counter
keyed by dst_addr: with no counter recorded for d the packet gets
ssn = 0, and with recorded value k the packet gets ssn = k + 1, the
counter advancing accordingly. -/
theorem switch_user_ssn_assignment
    (env : SwitchEnv) (st : SwitchState) (m : NetworkPacket)
    (d : Nat) (link : Link) (iface : ModuleRef) (a : Nat)
    (hdst : m.dst_addr = some d) (hsrc : m.src_addr = none)
    (hlocal : isLocal env (some d) = false)
    (hroute : st.table.lookup d = some link)
    (hconn : connLookup env link.connection = some iface)
    (haddr : iface.address = some a) :
    (st.ssns.lookup d = none →
      NetworkSwitch.handle_message env st m "user" =
        .ok { st with ssns := updateSsn st.ssns d 0 }
          [(link.connection,
            { m with src_addr := some a, ssn := some 0,
                     rcv_addr := some link.next_hop,
                     snd_addr := some a })]) ∧
    (∀ k, st.ssns.lookup d = some k →
      NetworkSwitch.handle_message env st m "user" =
        .ok { st with ssns := updateSsn st.ssns d (k + 1) }
          [(link.connection,
            { m with src_addr := some a, ssn := some (k + 1),
                     rcv_addr := some link.next_hop,
                     snd_addr := some a })]) := by
  constructor
  · intro h0
    simp only [NetworkSwitch.handle_message, hsrc, NetworkSwitch.route,
      hdst, hlocal, hroute, hconn, haddr, h0, Bool.false_eq_true,
      if_false, if_true]
  · intro k hk
    simp only [NetworkSwitch.handle_message, hsrc, NetworkSwitch.route,
      hdst, hlocal, hroute, hconn, haddr, hk, Bool.false_eq_true,
      if_false, if_true]

/-- C1 witness: a switch with route 5 to (eth0, next hop 5), egress
address 30 and an empty SSN map assigns ssn 0 to the first user packet
for destination 5. -/
theorem switch_user_ssn_assignment_witness :
    NetworkSwitch.handle_message ⟨[("user", ⟨none⟩), ("eth0", ⟨some 30⟩)]⟩
        ⟨[(5, ⟨"eth0", 5⟩)], []⟩ { dst_addr := some 5 } "user" =
      .ok ⟨[(5, ⟨"eth0", 5⟩)], [(5, 0)]⟩
        [("eth0",
          { dst_addr := some 5, src_addr := some 30, snd_addr := some 30,
            rcv_addr := some 5, ssn := some 0 })] :=
  (switch_user_ssn_assignment ⟨[("user", ⟨none⟩), ("eth0", ⟨some 30⟩)]⟩
    ⟨[(5, ⟨"eth0", 5⟩)], []⟩ { dst_addr := some 5 } 5 ⟨"eth0", 5⟩
    ⟨some 30⟩ 30 rfl rfl (by decide) rfl rfl rfl).1 rfl

/-- C2: duplicate suppression at the switch is idempotent.  For a
packet with src_addr s and ssn k arriving on a non-user connection with
a routable non-local destination: if no SSN is recorded for s, the
first handling records k and forwards exactly one copy, and handling
the same packet again from the resulting state drops it with no send
and no state change; in general any packet whose ssn is at most the
recorded value for its src_addr is dropped with no send and no state
change. -/
theorem switch_duplicate_suppression
    (env : SwitchEnv) (st : SwitchState) (m : NetworkPacket)
    (s k d : Nat) (link : Link) (iface : ModuleRef) (a : Nat) (c : String)
    (hsrc : m.src_addr = some s) (hssn : m.ssn = some k)
    (hdst : m.dst_addr = some d) (hc : ¬ c = "user")
    (hlocal : isLocal env (some d) = false)
    (hroute : st.table.lookup d = some link)
    (hconn : connLookup env link.connection = some iface)
    (haddr : iface.address = some a) :
    (st.ssns.lookup s = none →
       NetworkSwitch.handle_message env st m c =
         .ok { st with ssns := updateSsn st.ssns s k }
           [(link.connection,
             { m with rcv_addr := some link.next_hop,
                      snd_addr := some a })] ∧
       NetworkSwitch.handle_message env
           { st with ssns := updateSsn st.ssns s k } m c =
         .ok { st with ssns := updateSsn st.ssns s k } []) ∧
    (∀ r, st.ssns.lookup s = some r → k ≤ r →
       NetworkSwitch.handle_message env st m c = .ok st []) := by
  constructor
  · intro hnone
    constructor
    · simp only [NetworkSwitch.handle_message, hsrc, hssn, hnone,
        NetworkSwitch.route, hdst, hlocal, hroute, hconn, haddr,
        Bool.false_eq_true, if_false, if_neg hc]
    · have hrec : (updateSsn st.ssns s k).lookup s = some k :=
        lookup_updateSsn_self st.ssns s k
      simp only [NetworkSwitch.handle_message, hsrc, hssn, hrec,
        if_pos (le_refl k)]
  · intro r hr hkr
    simp only [NetworkSwitch.handle_message, hsrc, hssn, hr, if_pos hkr]

/-- C2 witness: a packet with src 9 and ssn 7 for routable destination
7 arriving on eth1 is forwarded once from the fresh switch and dropped
on the second handling. -/
theorem switch_duplicate_suppression_witness :
    NetworkSwitch.handle_message ⟨[("user", ⟨none⟩), ("eth0", ⟨some 30⟩)]⟩
        ⟨[(7, ⟨"eth0", 2⟩)], []⟩
        { dst_addr := some 7, src_addr := some 9, ssn := some 7 } "eth1" =
      .ok ⟨[(7, ⟨"eth0", 2⟩)], [(9, 7)]⟩
        [("eth0",
          { dst_addr := some 7, src_addr := some 9, snd_addr := some 30,
            rcv_addr := some 2, ssn := some 7 })] ∧
    NetworkSwitch.handle_message ⟨[("user", ⟨none⟩), ("eth0", ⟨some 30⟩)]⟩
        ⟨[(7, ⟨"eth0", 2⟩)], [(9, 7)]⟩
        { dst_addr := some 7, src_addr := some 9, ssn := some 7 } "eth1" =
      .ok ⟨[(7, ⟨"eth0", 2⟩)], [(9, 7)]⟩ [] :=
  (switch_duplicate_suppression ⟨[("user", ⟨none⟩), ("eth0", ⟨some 30⟩)]⟩
    ⟨[(7, ⟨"eth0", 2⟩)], []⟩
    { dst_addr := some 7, src_addr := some 9, ssn := some 7 }
    9 7 7 ⟨"eth0", 2⟩ ⟨some 30⟩ 30 "eth1" rfl rfl rfl (by decide)
    (by decide) rfl rfl rfl).1 rfl

/-- C9: the duplicate filter and the origination SSN counters share one
map.  From a switch that never saw source address d, forwarding a
user-originated packet to routable non-local destination d records 0
under key d, and afterwards any packet with src_addr d and ssn 0 is
silently dropped by the stale-duplicate filter even though it is the
first packet ever received from source d. -/
theorem switch_shared_ssn_map
    (env : SwitchEnv) (st : SwitchState) (m1 : NetworkPacket)
    (d : Nat) (link : Link) (iface : ModuleRef) (a : Nat)
    (hdst : m1.dst_addr = some d) (hsrc : m1.src_addr = none)
    (hlocal : isLocal env (some d) = false)
    (hroute : st.table.lookup d = some link)
    (hconn : connLookup env link.connection = some iface)
    (haddr : iface.address = some a)
    (hfresh : st.ssns.lookup d = none) :
    NetworkSwitch.handle_message env st m1 "user" =
      .ok { st with ssns := updateSsn st.ssns d 0 }
        [(link.connection,
          { m1 with src_addr := some a, ssn := some 0,
                    rcv_addr := some link.next_hop,
                    snd_addr := some a })] ∧
    (∀ (m2 : NetworkPacket) (c2 : String),
       m2.src_addr = some d → m2.ssn = some 0 →
       NetworkSwitch.handle_message env
           { st with ssns := updateSsn st.ssns d 0 } m2 c2 =
         .ok { st with ssns := updateSsn st.ssns d 0 } []) := by
  constructor
  · exact (switch_user_ssn_assignment env st m1 d link iface a hdst hsrc
      hlocal hroute hconn haddr).1 hfresh
  · intro m2 c2 h2src h2ssn
    have hrec : (updateSsn st.ssns d 0).lookup d = some 0 :=
      lookup_updateSsn_self st.ssns d 0
    simp only [NetworkSwitch.handle_message, h2src, h2ssn, hrec,
      if_pos (le_refl 0)]

/-- C9 witness: after the first user packet to destination 5 is
forwarded with ssn 0, a first-ever packet from source address 5 with
ssn 0 is dropped. -/
theorem switch_shared_ssn_map_witness :
    NetworkSwitch.handle_message ⟨[("user", ⟨none⟩), ("eth0", ⟨some 30⟩)]⟩
        ⟨[(5, ⟨"eth0", 5⟩)], []⟩ { dst_addr := some 5 } "user" =
      .ok ⟨[(5, ⟨"eth0", 5⟩)], [(5, 0)]⟩
        [("eth0",
          { dst_addr := some 5, src_addr := some 30, snd_addr := some 30,
            rcv_addr := some 5, ssn := some 0 })] ∧
    NetworkSwitch.handle_message ⟨[("user", ⟨none⟩), ("eth0", ⟨some 30⟩)]⟩
        ⟨[(5, ⟨"eth0", 5⟩)], [(5, 0)]⟩
        { dst_addr := some 7, src_addr := some 5, ssn := some 0 } "eth0" =
      .ok ⟨[(5, ⟨"eth0", 5⟩)], [(5, 0)]⟩ [] := by
  have h := switch_shared_ssn_map ⟨[("user", ⟨none⟩), ("eth0", ⟨some 30⟩)]⟩
    ⟨[(5, ⟨"eth0", 5⟩)], []⟩ { dst_addr := some 5 } 5 ⟨"eth0", 5⟩
    ⟨some 30⟩ 30 rfl rfl (by decide) rfl rfl rfl rfl
  exact ⟨h.1, h.2 { dst_addr := some 7, src_addr := some 5, ssn := some 0 }
    "eth0" rfl rfl⟩

/-- C10: a NetworkPacket that passes the duplicate filter and whose
destination is the address of a connected module is sent on the user
connection unmodified, on any inbound connection: with src_addr unset
the whole switch state is untouched; with src_addr set and the filter
passing (no record, or record strictly below the ssn) only the filter's
own record for src_addr changes, and the origination counter logic
never runs. -/
theorem switch_local_delivery_unmodified
    (env : SwitchEnv) (st : SwitchState) (m : NetworkPacket) (c : String) :
    (m.src_addr = none → isLocal env m.dst_addr = true →
       NetworkSwitch.handle_message env st m c = .ok st [("user", m)]) ∧
    (∀ s k, m.src_addr = some s → m.ssn = some k →
       st.ssns.lookup s = none → isLocal env m.dst_addr = true →
       NetworkSwitch.handle_message env st m c =
         .ok { st with ssns := updateSsn st.ssns s k } [("user", m)]) ∧
    (∀ s k r, m.src_addr = some s → m.ssn = some k →
       st.ssns.lookup s = some r → r < k → isLocal env m.dst_addr = true →
       NetworkSwitch.handle_message env st m c =
         .ok { st with ssns := updateSsn st.ssns s k } [("user", m)]) := by
  refine ⟨?_, ?_, ?_⟩
  · intro hsrc hloc
    simp only [NetworkSwitch.handle_message, hsrc, NetworkSwitch.route,
      hloc, if_true]
  · intro s k hsrc hssn hnone hloc
    simp only [NetworkSwitch.handle_message, hsrc, hssn, hnone,
      NetworkSwitch.route, hloc, if_true]
  · intro s k r hsrc hssn hr hrk hloc
    simp only [NetworkSwitch.handle_message, hsrc, hssn, hr,
      if_neg (not_le.mpr hrk), NetworkSwitch.route, hloc, if_true]

/-- C10 witness: a packet arriving on the user connection with all four
addresses and the ssn unset, destined to the local address 30, is
delivered on the user connection with every field still unset and the
switch state untouched. -/
theorem switch_local_delivery_unmodified_witness :
    NetworkSwitch.handle_message ⟨[("user", ⟨none⟩), ("eth0", ⟨some 30⟩)]⟩
        ⟨[(5, ⟨"eth0", 5⟩)], []⟩ { dst_addr := some 30 } "user" =
      .ok ⟨[(5, ⟨"eth0", 5⟩)], []⟩ [("user", { dst_addr := some 30 })] :=
  (switch_local_delivery_unmodified ⟨[("user", ⟨none⟩), ("eth0", ⟨some 30⟩)]⟩
    ⟨[(5, ⟨"eth0", 5⟩)], []⟩ { dst_addr := some 30 } "user").1 rfl (by decide)

/-- C3 counterexample: with interval sequence (34, 42) and constant
data size 123, construction consumes the first interval, so the second
generate invocation already finds the interval iterator exhausted and
schedules nothing, and a third generate invocation still sends an
AppData packet (the constant size sampler never exhausts; interval
exhaustion only suppresses the schedule, not the send).  This refutes
the claim that the first two invocations each schedule the next fire
and that the third invocation sends nothing. -/
theorem random_source_exhaustion_counterexample :
    (RandomSource.generate ⟨0, 1⟩ 80
        (RandomSource.generate ⟨0, 1⟩ 76
          (RandomSource.generate ⟨0, 1⟩ 34
            (RandomSource.init (.finite [34, 42]) (.const 123)).1).st).st).sent =
      some ⟨1, 123, 0⟩ ∧
    (RandomSource.generate ⟨0, 1⟩ 76
        (RandomSource.generate ⟨0, 1⟩ 34
          (RandomSource.init (.finite [34, 42]) (.const 123)).1).st).scheduled =
      none := ⟨rfl, rfl⟩

/-- C3 (amended): a generate invocation whose size sampler is exhausted
performs no send and no schedule and leaves the source state unchanged;
an invocation that draws a size but finds the interval sampler
exhausted still sends the AppData packet and records the statistics but
schedules nothing.  In the (34, 42) and constant-123 scenario the
construction consumes the first interval, the first generate invocation
sends and schedules the next fire after 42, and the second invocation
and any later one send a packet but schedule nothing. -/
theorem random_source_exhaustion
    (src : RandomSource) (stime : ℚ) (st : SourceState) :
    (st.data_size_iter = .finite [] →
       RandomSource.generate src stime st = ⟨st, none, none⟩) ∧
    (∀ sz sizeIter, st.data_size_iter.next = some (sz, sizeIter) →
       st.interval_iter = .finite [] →
       RandomSource.generate src stime st =
         ⟨⟨st.interval_iter, sizeIter,
           st.arrival_intervals ++ [stime], st.data_size_stat ++ [sz]⟩,
          some ⟨src.dest_addr, sz, src.source_id⟩, none⟩) ∧
    ((RandomSource.init (.finite [34, 42]) (.const 123)).2 = some 34 ∧
     (RandomSource.generate ⟨0, 1⟩ 34
        (RandomSource.init (.finite [34, 42]) (.const 123)).1).sent =
       some ⟨1, 123, 0⟩ ∧
     (RandomSource.generate ⟨0, 1⟩ 34
        (RandomSource.init (.finite [34, 42]) (.const 123)).1).scheduled =
       some 42 ∧
     (RandomSource.generate ⟨0, 1⟩ 76
        (RandomSource.generate ⟨0, 1⟩ 34
          (RandomSource.init (.finite [34, 42]) (.const 123)).1).st).sent =
       some ⟨1, 123, 0⟩ ∧
     (RandomSource.generate ⟨0, 1⟩ 76
        (RandomSource.generate ⟨0, 1⟩ 34
          (RandomSource.init (.finite [34, 42]) (.const 123)).1).st).scheduled =
       none) := by
  refine ⟨?_, ?_, rfl, rfl, rfl, rfl, rfl⟩
  · intro h
    simp only [RandomSource.generate, h, Sampler.next]
  · intro sz sizeIter hnext hint
    have hint2 : st.interval_iter.next = none := by
      rw [hint]
      rfl
    simp only [RandomSource.generate, hnext, hint2]

/-- C3 witness: a source whose size sampler is already exhausted does
nothing on generate. -/
theorem random_source_exhaustion_witness :
    RandomSource.generate ⟨0, 1⟩ 5 ⟨.const 1, .finite [], [], []⟩ =
      ⟨⟨.const 1, .finite [], [], []⟩, none, none⟩ :=
  (random_source_exhaustion ⟨0, 1⟩ 5 ⟨.const 1, .finite [], [], []⟩).1 rfl

/-- C4: a non-busy WiredTransceiver receiving a NetworkPacket of size s
on the queue connection emits on the peer connection a WireFrame whose
duration is (header_size + s) / bitrate + preamble and schedules the
tx-end callback after exactly that duration; the tx-end handler then
schedules the ifs-end callback after ifs, and the ifs-end handler calls
get_next on the upstream queue.  With bitrate 500, header size 10, no
preamble and s = 100 the duration is 0.22, and with ifs = 0.05 a
transmission started at time 0 reaches the queue pull at
0 + 0.22 + 0.05 = 0.27. -/
theorem transceiver_tx_timing
    (tr : WiredTransceiver) (st : TransceiverState) (p : NetworkPacket)
    (s : Nat) (hbusy : st.tx_busy = false) (hsize : p.bitSize = some s) :
    (WiredTransceiver.handle_message tr st (.net p) "queue" =
       .ok { st with tx_frame := some ⟨p, txDuration tr s, tr.header_size, tr.preamble⟩ }
         ⟨[("peer", .frame ⟨p, txDuration tr s, tr.header_size, tr.preamble⟩)],
          [(txDuration tr s, .tx_end)], false⟩) ∧
    (∀ st2, WiredTransceiver.handle_tx_end tr st2 =
       ({ st2 with tx_frame := none, wait_ifs := true },
        ⟨[], [(tr.ifs, .ifs_end)], false⟩)) ∧
    (∀ st3, WiredTransceiver.handle_ifs_end st3 =
       ({ st3 with wait_ifs := false }, ⟨[], [], true⟩)) ∧
    (txDuration ⟨500, 10, 0, 0.05⟩ 100 = 0.22 ∧
     (0 : ℚ) + txDuration ⟨500, 10, 0, 0.05⟩ 100 + 0.05 = 0.27) := by
  refine ⟨?_, fun st2 => rfl, fun st3 => rfl, by norm_num [txDuration],
    by norm_num [txDuration]⟩
  simp only [WiredTransceiver.handle_message, hbusy, hsize,
    Bool.false_eq_true, if_false, if_true]

/-- C4 witness: the concrete 500-bitrate, 10-bit-header, no-preamble
transceiver transmits a size-100 packet in a frame whose duration is
the formula value (0.22 by the theorem's own concrete clause). -/
theorem transceiver_tx_timing_witness :
    WiredTransceiver.handle_message ⟨500, 10, 0, 0.05⟩
        ⟨false, none, false, none⟩ (.net { data := some ⟨1, 100, 0⟩ })
        "queue" =
      .ok ⟨false, some ⟨{ data := some ⟨1, 100, 0⟩ }, txDuration ⟨500, 10, 0, 0.05⟩ 100, 10, 0⟩,
           false, none⟩
        ⟨[("peer", .frame ⟨{ data := some ⟨1, 100, 0⟩ }, txDuration ⟨500, 10, 0, 0.05⟩ 100, 10, 0⟩)],
         [(txDuration ⟨500, 10, 0, 0.05⟩ 100, .tx_end)], false⟩ :=
  (transceiver_tx_timing ⟨500, 10, 0, 0.05⟩
    ⟨false, none, false, none⟩ { data := some ⟨1, 100, 0⟩ } 100
    rfl rfl).1

/-- C7: a WiredTransceiver whose tx_busy property holds (tx_frame set
or wait_ifs raised) raises a RuntimeError on any message arriving on
the queue connection, and the failure leaves the transceiver state
exactly as it was (the error result carries the unmutated state); when
tx_busy is false, a NetworkPacket with a payload raises no error. -/
theorem transceiver_busy_tx_error
    (tr : WiredTransceiver) (st : TransceiverState) (msg : TMessage) :
    (st.tx_busy = true →
       WiredTransceiver.handle_message tr st msg "queue" =
         .fail st "RuntimeError: new NetworkPacket while another TX running") ∧
    (st.tx_busy = false → ∀ p s, msg = .net p → p.bitSize = some s →
       ∃ st2 eff,
         WiredTransceiver.handle_message tr st msg "queue" = .ok st2 eff) := by
  constructor
  · intro hbusy
    simp only [WiredTransceiver.handle_message, hbusy, if_true]
  · intro hidle p s hmsg hsize
    subst hmsg
    refine ⟨{ st with tx_frame := some ⟨p, txDuration tr s, tr.header_size, tr.preamble⟩ },
      ⟨[("peer", .frame ⟨p, txDuration tr s, tr.header_size, tr.preamble⟩)],
       [(txDuration tr s, .tx_end)], false⟩, ?_⟩
    simp only [WiredTransceiver.handle_message, hidle, hsize,
      Bool.false_eq_true, if_false, if_true]

/-- C7 witness: a transceiver waiting out its IFS rejects a new TX
request and keeps its state; an idle transceiver accepts it. -/
theorem transceiver_busy_tx_error_witness :
    (WiredTransceiver.handle_message ⟨500, 10, 0, 0.05⟩
        ⟨true, none, true, none⟩ (.net { data := some ⟨1, 100, 0⟩ })
        "queue" =
      .fail ⟨true, none, true, none⟩
        "RuntimeError: new NetworkPacket while another TX running") ∧
    (∃ st2 eff, WiredTransceiver.handle_message ⟨500, 10, 0, 0.05⟩
        ⟨true, none, false, none⟩ (.net { data := some ⟨1, 100, 0⟩ })
        "queue" = .ok st2 eff) :=
  ⟨(transceiver_busy_tx_error ⟨500, 10, 0, 0.05⟩ ⟨true, none, true, none⟩
      (.net { data := some ⟨1, 100, 0⟩ })).1 rfl,
   (transceiver_busy_tx_error ⟨500, 10, 0, 0.05⟩ ⟨true, none, false, none⟩
      (.net { data := some ⟨1, 100, 0⟩ })).2 rfl
     { data := some ⟨1, 100, 0⟩ } 100 rfl rfl⟩

/-- C8 (code evaluation): the complete effect of the source's
handle_rx_end is to send frame.packet on the up connection
unconditionally and clear rx_frame; the transceiver state embedded from
the source has no received-frames counter, no received-bits counter and
no RX busy trace to update, and nothing in the handler is conditional
on the existence of an up connection — contrary to the specification
and to the repository's own unit tests. -/
theorem transceiver_rx_end_code (frame : WireFrame)
    (st : TransceiverState) :
    WiredTransceiver.handle_rx_end frame st =
      ({ st with rx_frame := none },
       ⟨[("up", .packet frame.packet)], [], false⟩) := rfl

/-- C5: a get_next call on an empty queue with no parked waiter parks
the resolved connection; a subsequent push hands the packet directly to
that waiter and restores the exact original queue state, so the buffer
stays empty and neither trace records anything; and in general a push
onto a queue with parked waiters serves the head-of-line waiter first,
bypassing the buffer. -/
theorem queue_pull_before_push
    {α : Type} (size : α → Nat) (conns : List (String × Nat))
    (service : Nat) (cn : String) (st : QueueState α)
    (t1 t2 : ℚ) (p : α)
    (hconn : Queue.get_connection_to conns service = .ok cn)
    (hempty : st.packets = []) (hwait : st.data_requests = []) :
    (Queue.get_next size conns service t1 st =
       .ok ({ st with data_requests := [cn] }, none)) ∧
    (Queue.push size t2 p { st with data_requests := [cn] } =
       (st, some (cn, p))) ∧
    (∀ (st2 : QueueState α) (c1 : String) (rest : List String) (q : α)
       (t3 : ℚ), st2.data_requests = c1 :: rest →
       Queue.push size t3 q st2 =
         ({ st2 with data_requests := rest }, some (c1, q))) := by
  obtain ⟨cap, pks, nd, dr, str, btr⟩ := st
  dsimp at hempty hwait
  subst hempty hwait
  refine ⟨?_, ?_, ?_⟩
  · simp [Queue.get_next, hconn]
  · simp [Queue.push]
  · intro st2 c1 rest q t3 h2
    simp [Queue.push, h2]

/-- C5 witness: pull on the empty two-slot queue, then push packet 123;
the packet goes straight to the stored connection and the state returns
to the original. -/
theorem queue_pull_before_push_witness :
    (Queue.get_next (fun n => n) [("iface", 77)] 77 1
        (⟨some 2, [], 0, [], [(0, 0)], [(0, 0)]⟩ : QueueState Nat) =
      .ok (⟨some 2, [], 0, ["iface"], [(0, 0)], [(0, 0)]⟩, none)) ∧
    (Queue.push (fun n => n) 2 123
        (⟨some 2, [], 0, ["iface"], [(0, 0)], [(0, 0)]⟩ : QueueState Nat) =
      (⟨some 2, [], 0, [], [(0, 0)], [(0, 0)]⟩, some ("iface", 123))) := by
  have h := queue_pull_before_push (fun n => n) [("iface", 77)] 77 "iface"
    (⟨some 2, [], 0, [], [(0, 0)], [(0, 0)]⟩ : QueueState Nat) 1 2 123
    rfl rfl rfl
  exact ⟨h.1, h.2.1⟩

/-- C6: a push onto a queue whose buffer already holds capacity-many
packets, with no parked waiter, increments num_dropped by one and
changes nothing else: the result state is the original with only
num_dropped bumped, so the buffer and both traces are untouched and
nothing is sent. -/
theorem queue_overflow_drop
    {α : Type} (size : α → Nat) (st : QueueState α) (t : ℚ) (p : α)
    (c : Nat) (hcap : st.capacity = some c)
    (hfull : st.packets.length = c) (hwait : st.data_requests = []) :
    Queue.push size t p st =
      ({ st with num_dropped := st.num_dropped + 1 }, none) := by
  simp only [Queue.push, hwait, hcap, hfull, lt_irrefl, decide_False,
    Bool.false_eq_true, if_false]

/-- C6 witness: pushing a third packet onto a full capacity-2 queue
only bumps the drop counter. -/
theorem queue_overflow_drop_witness :
    Queue.push (fun n => n) 3 9
        (⟨some 2, [5, 7], 0, [], [(0, 0)], [(0, 0)]⟩ : QueueState Nat) =
      (⟨some 2, [5, 7], 1, [], [(0, 0)], [(0, 0)]⟩, none) :=
  queue_overflow_drop (fun n => n)
    (⟨some 2, [5, 7], 0, [], [(0, 0)], [(0, 0)]⟩ : QueueState Nat) 3 9 2
    rfl rfl rfl

end Pycsmaca
